import Mathlib

/-!
Shallow embedding of the camp-management backend (src/backend): the data
model from models.py, the authentication layer from auth.py, and the
request handlers from mainoriginal.py. Database tables are lists of rows;
every state-touching operation takes the database state and returns it
(possibly updated) together with an `Except` result mirroring the
HTTPException status codes raised by the handlers. Timestamps are modelled
as integers; the bcrypt hashing primitive and the random token generator
are external collaborators, modelled respectively by a tagging function
and by an explicit token-value argument.
-/

namespace Camp

/-- Row of the users table (models.py, class User). -/
structure User where
  id : Nat
  email : String
  full_name : String
  password_hash : String
  role : String
  is_active : Bool
deriving Repr, DecidableEq

/-- Row of the session_tokens table (models.py, class SessionToken). -/
structure SessionToken where
  id : Nat
  token : String
  user_id : Nat
  expires_at : Int
deriving Repr, DecidableEq

/-- Row of the campers table (models.py, class Camper). -/
structure Camper where
  id : Nat
  first_name : String
  last_name : String
  date_of_birth : Option String
  emergency_info : Option String
deriving Repr, DecidableEq

/-- Row of the parent_campers ownership-link table (models.py, class ParentCamper). -/
structure ParentCamper where
  id : Nat
  parent_user_id : Nat
  camper_id : Nat
deriving Repr, DecidableEq

/-- Row of the camp_years table (models.py, class CampYear). -/
structure CampYear where
  id : Nat
  year : Int
  is_active : Bool
deriving Repr, DecidableEq

/-- Row of the enrollments table (models.py, class Enrollment). -/
structure Enrollment where
  id : Nat
  camp_year_id : Nat
  camper_id : Nat
  status : String
  notes : Option String
deriving Repr, DecidableEq

/-- Row of the groups table (models.py, class Group). -/
structure Group where
  id : Nat
  camp_year_id : Nat
  name : String
  description : Option String
deriving Repr, DecidableEq

/-- Row of the group_memberships table (models.py, class GroupMembership). -/
structure GroupMembership where
  id : Nat
  group_id : Nat
  camper_id : Nat
deriving Repr, DecidableEq

/-- Row of the group_events table (models.py, class GroupEvent). -/
structure GroupEvent where
  id : Nat
  group_id : Nat
  title : String
  description : Option String
  location : Option String
  start_time : Int
  end_time : Int
deriving Repr, DecidableEq

/-- Whole database state: one list per table, plus a fresh-id counter
standing for the primary-key sequences. -/
structure DB where
  users : List User
  session_tokens : List SessionToken
  campers : List Camper
  parent_campers : List ParentCamper
  camp_years : List CampYear
  enrollments : List Enrollment
  groups : List Group
  group_memberships : List GroupMembership
  group_events : List GroupEvent
  next_id : Nat
deriving Repr, DecidableEq

/-- Empty database. -/
def DB.empty : DB :=
  ⟨[], [], [], [], [], [], [], [], [], 0⟩

/-- Errors surfaced to the caller: `http s` is an HTTPException with status
code `s` as raised in auth.py / mainoriginal.py; `conflictUnique c` is a
storage-level uniqueness violation of the named UniqueConstraint from
models.py propagating out of a commit; `dbError` is any other storage
failure aborting a commit. -/
inductive Err where
  | http (status : Nat)
  | conflictUnique (constraint : String)
  | dbError
deriving Repr, DecidableEq

/-- Result shape of a handler: the response or error, together with the
database state after the call (side effects included even on failure). -/
abbrev Res (α : Type) : Type := Except Err α × DB

/-- Password hashing (auth.py hash_password). The bcrypt primitive is an
external collaborator; it is modelled as an injective tagging function. -/
def hash_password (password : String) : String :=
  String.append ("bcrypt$") password

/-- Password verification (auth.py verify_password). -/
def verify_password (password : String) (password_hash : String) : Bool :=
  hash_password password == password_hash

/-- Token minting (auth.py create_token): stores a token expiring
ttl_minutes after now. The random token value comes from an external
entropy source and is passed in explicitly. -/
def create_token (token_value : String) (now ttl_minutes : Int) (u : User) (s : DB) :
    SessionToken × DB :=
  let tok : SessionToken := ⟨s.next_id, token_value, u.id, now + ttl_minutes * 60⟩
  (tok, { s with session_tokens := s.session_tokens ++ [tok], next_id := s.next_id + 1 })

/-- Token resolution (auth.py get_user_by_token): looks the token value up;
if absent returns none; if expired (strictly earlier than now) deletes the
row and returns none; otherwise returns the owning account provided it is
active. -/
def get_user_by_token (s : DB) (token_value : String) (now : Int) : Option User × DB :=
  match s.session_tokens.find? (fun t => t.token == token_value) with
  | none => (none, s)
  | some tok =>
    if tok.expires_at < now then
      (none, { s with session_tokens := s.session_tokens.filter (fun t => t.id != tok.id) })
    else
      (s.users.find? (fun u => u.id == tok.user_id && u.is_active), s)

/-- Bearer-token authentication (auth.py require_auth): missing or empty
credentials, or an unresolvable token, yield HTTP 401. -/
def require_auth (s : DB) (credentials : Option String) (now : Int) : Res User :=
  match credentials with
  | none => (Except.error (Err.http 401), s)
  | some tv =>
    if tv == ("") then (Except.error (Err.http 401), s)
    else
      let r := get_user_by_token s tv now
      match r.1 with
      | none => (Except.error (Err.http 401), r.2)
      | some u => (Except.ok u, r.2)

/-- Role gating (auth.py require_role): HTTP 403 unless the account role
string equals the required role exactly. -/
def require_role (role : String) (user : User) : Except Err User :=
  if user.role != role then Except.error (Err.http 403) else Except.ok user

/-- Idempotent startup seeding (mainoriginal.py seed_admin_and_year):
creates the configured camp year and the admin account when absent. -/
def seed_admin_and_year (seed_email seed_password : String) (seed_year : Int) (s : DB) : DB :=
  let s1 : DB :=
    match s.camp_years.find? (fun cy => cy.year == seed_year) with
    | some _ => s
    | none =>
        { s with camp_years := s.camp_years ++ [⟨s.next_id, seed_year, true⟩],
                 next_id := s.next_id + 1 }
  match s1.users.find? (fun u => u.email == seed_email) with
  | some _ => s1
  | none =>
      { s1 with
        users := s1.users ++
          [⟨s1.next_id, seed_email, ("Default Admin"), hash_password seed_password, ("admin"), true⟩],
        next_id := s1.next_id + 1 }

/-- Camp-year lookup or implicit creation (mainoriginal.py
get_or_create_camp_year); a newly created year is inactive. -/
def get_or_create_camp_year (s : DB) (year_value : Int) : CampYear × DB :=
  match s.camp_years.find? (fun cy => cy.year == year_value) with
  | some cy => (cy, s)
  | none =>
    let cy : CampYear := ⟨s.next_id, year_value, false⟩
    (cy, { s with camp_years := s.camp_years ++ [cy], next_id := s.next_id + 1 })

/-- Ownership check (mainoriginal.py ensure_parent_owns_camper): HTTP 403
when no ParentCamper link relates the parent to the camper. -/
def ensure_parent_owns_camper (s : DB) (parent_user_id camper_id : Nat) : Except Err Unit :=
  match s.parent_campers.find?
      (fun l => l.parent_user_id == parent_user_id && l.camper_id == camper_id) with
  | none => Except.error (Err.http 403)
  | some _ => Except.ok ()

/-- Request body of POST /api/auth/register-parent (schemas.py
RegisterParentRequest). -/
structure RegisterParentRequest where
  email : String
  password : String
  full_name : String
deriving Repr, DecidableEq

/-- Request body of POST /api/auth/login (schemas.py LoginRequest). -/
structure LoginRequest where
  email : String
  password : String
deriving Repr, DecidableEq

/-- Response body of POST /api/auth/login (schemas.py TokenResponse). -/
structure TokenResponse where
  access_token : String
  token_type : String
  expires_at : Int
deriving Repr, DecidableEq

/-- Request body for creating a parent account (schemas.py ParentCreate). -/
structure ParentCreate where
  email : String
  password : String
  full_name : String
deriving Repr, DecidableEq

/-- Request body for creating a camper (schemas.py CamperCreate). -/
structure CamperCreate where
  first_name : String
  last_name : String
  date_of_birth : Option String
  emergency_info : Option String
deriving Repr, DecidableEq

/-- Request body for creating an enrollment (schemas.py EnrollmentCreate):
only the camper and the year, no status or notes field. -/
structure EnrollmentCreate where
  camper_id : Nat
  camp_year : Int
deriving Repr, DecidableEq

/-- Request body for updating an enrollment (schemas.py EnrollmentUpdate). -/
structure EnrollmentUpdate where
  status : String
  notes : Option String
deriving Repr, DecidableEq

/-- Request body for creating a group (schemas.py GroupCreate). -/
structure GroupCreate where
  camp_year : Int
  name : String
  description : Option String
deriving Repr, DecidableEq

/-- Request body for adding a group member (schemas.py GroupMembershipCreate). -/
structure GroupMembershipCreate where
  camper_id : Nat
deriving Repr, DecidableEq

/-- Request body for creating a group event (schemas.py GroupEventCreate). -/
structure GroupEventCreate where
  group_id : Nat
  title : String
  description : Option String
  location : Option String
  start_time : Int
  end_time : Int
deriving Repr, DecidableEq

/-- One flattened record of the parent schedule view (schemas.py
ParentScheduleItem). -/
structure ParentScheduleItem where
  camper_id : Nat
  camper_name : String
  group_id : Nat
  group_name : String
  event_id : Nat
  title : String
  start_time : Int
  end_time : Int
  location : Option String
deriving Repr, DecidableEq

/-- Handler of POST /api/auth/register-parent (mainoriginal.py
register_parent): HTTP 400 on duplicate email, else stores a parent
account with a hashed password, active. -/
def register_parent (payload : RegisterParentRequest) (s : DB) : Res User :=
  match s.users.find? (fun u => u.email == payload.email) with
  | some _ => (Except.error (Err.http 400), s)
  | none =>
    let parent : User :=
      ⟨s.next_id, payload.email, payload.full_name, hash_password payload.password,
       ("parent"), true⟩
    (Except.ok parent, { s with users := s.users ++ [parent], next_id := s.next_id + 1 })

/-- Handler of POST /api/auth/login (mainoriginal.py login): requires an
active account with matching password hash, then mints a token. -/
def login (payload : LoginRequest) (token_value : String) (now ttl_minutes : Int) (s : DB) :
    Res TokenResponse :=
  match s.users.find? (fun u => u.email == payload.email && u.is_active) with
  | none => (Except.error (Err.http 401), s)
  | some user =>
    if ¬ verify_password payload.password user.password_hash then
      (Except.error (Err.http 401), s)
    else
      let r := create_token token_value now ttl_minutes user s
      (Except.ok ⟨r.1.token, ("bearer"), r.1.expires_at⟩, r.2)

/-- Handler of POST /api/admin/parents (mainoriginal.py
admin_create_parent): HTTP 400 on duplicate email, else stores a parent
account with a hashed password, active. -/
def admin_create_parent (payload : ParentCreate) (s : DB) : Res User :=
  match s.users.find? (fun u => u.email == payload.email) with
  | some _ => (Except.error (Err.http 400), s)
  | none =>
    let parent : User :=
      ⟨s.next_id, payload.email, payload.full_name, hash_password payload.password,
       ("parent"), true⟩
    (Except.ok parent, { s with users := s.users ++ [parent], next_id := s.next_id + 1 })

/-- Handler of POST /api/admin/campers (mainoriginal.py admin_create_camper). -/
def admin_create_camper (payload : CamperCreate) (s : DB) : Camper × DB :=
  let camper : Camper :=
    ⟨s.next_id, payload.first_name, payload.last_name, payload.date_of_birth,
     payload.emergency_info⟩
  (camper, { s with campers := s.campers ++ [camper], next_id := s.next_id + 1 })

/-- Handler of POST /api/parent/campers (mainoriginal.py parent_add_child).
The source issues two separate commits: one for the camper row, a second
for the ownership link. The storage engine may accept or fail each commit;
`commit_ok n` reports the outcome of the n-th commit of this request. A
failed commit rolls back only its own uncommitted rows and surfaces a
storage error. -/
def parent_add_child (payload : CamperCreate) (uid : Nat) (commit_ok : Nat → Bool) (s : DB) :
    Res ParentCamper :=
  let camper : Camper :=
    ⟨s.next_id, payload.first_name, payload.last_name, payload.date_of_birth,
     payload.emergency_info⟩
  if ¬ commit_ok 0 then (Except.error Err.dbError, s)
  else
    let s1 : DB := { s with campers := s.campers ++ [camper], next_id := s.next_id + 1 }
    let link : ParentCamper := ⟨s1.next_id, uid, camper.id⟩
    if ¬ commit_ok 1 then (Except.error Err.dbError, s1)
    else
      (Except.ok link,
       { s1 with parent_campers := s1.parent_campers ++ [link], next_id := s1.next_id + 1 })

/-- Handler of POST /api/parent/enrollments (mainoriginal.py parent_enroll):
ownership check first, then camp-year lookup or creation, HTTP 400 when an
enrollment for the (year, camper) pair exists, else a new enrollment with
status pending and empty notes. -/
def parent_enroll (payload : EnrollmentCreate) (uid : Nat) (s : DB) : Res Enrollment :=
  match ensure_parent_owns_camper s uid payload.camper_id with
  | Except.error e => (Except.error e, s)
  | Except.ok _ =>
    let r := get_or_create_camp_year s payload.camp_year
    let cy := r.1
    let s1 := r.2
    match s1.enrollments.find?
        (fun e => e.camp_year_id == cy.id && e.camper_id == payload.camper_id) with
    | some _ => (Except.error (Err.http 400), s1)
    | none =>
      let enr : Enrollment := ⟨s1.next_id, cy.id, payload.camper_id, ("pending"), none⟩
      (Except.ok enr,
       { s1 with enrollments := s1.enrollments ++ [enr], next_id := s1.next_id + 1 })

/-- Handler of PUT /api/parent/enrollments/(id) (mainoriginal.py
parent_update_enrollment): HTTP 404 when the enrollment is absent, HTTP 403
when the caller does not own its camper, else replaces status and notes. -/
def parent_update_enrollment (enrollment_id : Nat) (payload : EnrollmentUpdate) (uid : Nat)
    (s : DB) : Res Enrollment :=
  match s.enrollments.find? (fun e => e.id == enrollment_id) with
  | none => (Except.error (Err.http 404), s)
  | some enr =>
    match ensure_parent_owns_camper s uid enr.camper_id with
    | Except.error e => (Except.error e, s)
    | Except.ok _ =>
      let enr2 : Enrollment := { enr with status := payload.status, notes := payload.notes }
      (Except.ok enr2,
       { s with enrollments := s.enrollments.map (fun e => if e.id == enrollment_id then enr2 else e) })

/-- Handler of POST /api/admin/groups (mainoriginal.py admin_create_group):
resolves or creates the camp year, then inserts the group. The handler has
no duplicate check of its own; the commit enforces the UniqueConstraint
uq_group_year_name of models.py (camp_year_id, name) at the storage layer
and a violation aborts the insert. -/
def admin_create_group (payload : GroupCreate) (s : DB) : Res Group :=
  let r := get_or_create_camp_year s payload.camp_year
  let cy := r.1
  let s1 := r.2
  let g : Group := ⟨s1.next_id, cy.id, payload.name, payload.description⟩
  if s1.groups.any (fun g0 => g0.camp_year_id == cy.id && g0.name == payload.name) then
    (Except.error (Err.conflictUnique ("uq_group_year_name")), s1)
  else
    (Except.ok g, { s1 with groups := s1.groups ++ [g], next_id := s1.next_id + 1 })

/-- Handler of POST /api/admin/groups/(id)/members (mainoriginal.py
admin_add_group_member): HTTP 404 when group or camper is absent, HTTP 400
when the membership pair exists, else inserts the membership. -/
def admin_add_group_member (group_id : Nat) (payload : GroupMembershipCreate) (s : DB) :
    Res GroupMembership :=
  match s.groups.find? (fun g => g.id == group_id) with
  | none => (Except.error (Err.http 404), s)
  | some _ =>
    match s.campers.find? (fun c => c.id == payload.camper_id) with
    | none => (Except.error (Err.http 404), s)
    | some _ =>
      if s.group_memberships.any
          (fun m => m.group_id == group_id && m.camper_id == payload.camper_id) then
        (Except.error (Err.http 400), s)
      else
        let m : GroupMembership := ⟨s.next_id, group_id, payload.camper_id⟩
        (Except.ok m,
         { s with group_memberships := s.group_memberships ++ [m], next_id := s.next_id + 1 })

/-- Handler of POST /api/admin/events (mainoriginal.py admin_create_event):
HTTP 404 when the group is absent, HTTP 400 when end_time is not after
start_time, else inserts the event with exactly the given fields. -/
def admin_create_event (payload : GroupEventCreate) (s : DB) : Res GroupEvent :=
  match s.groups.find? (fun g => g.id == payload.group_id) with
  | none => (Except.error (Err.http 404), s)
  | some _ =>
    if payload.end_time ≤ payload.start_time then (Except.error (Err.http 400), s)
    else
      let ev : GroupEvent :=
        ⟨s.next_id, payload.group_id, payload.title, payload.description, payload.location,
         payload.start_time, payload.end_time⟩
      (Except.ok ev,
       { s with group_events := s.group_events ++ [ev], next_id := s.next_id + 1 })

/-- Insertion step of the ORDER BY start_time ASC of the events query in
mainoriginal.py parent_view_schedule. -/
def insertByStart (ev : GroupEvent) : List GroupEvent → List GroupEvent
  | [] => [ev]
  | e :: es => if ev.start_time ≤ e.start_time then ev :: e :: es else e :: insertByStart ev es

/-- Ascending sort by start_time, modelling the ORDER BY of the events
query; ties are left in an order the database does not fix. -/
def sortByStart : List GroupEvent → List GroupEvent
  | [] => []
  | e :: es => insertByStart e (sortByStart es)

/-- Membership test of the events query in parent_view_schedule: the event
joins its Group and the CampYear of that group (inner joins), must belong
to one of the collected group ids, and must match the optional camp-year
filter. -/
def eventJoinOk (s : DB) (group_ids : List Nat) (camp_year : Option Int)
    (ev : GroupEvent) : Bool :=
  group_ids.contains ev.group_id &&
  match s.groups.find? (fun g => g.id == ev.group_id) with
  | none => false
  | some g =>
    match s.camp_years.find? (fun cy => cy.id == g.camp_year_id) with
    | none => false
    | some cy =>
      match camp_year with
      | none => true
      | some y => cy.year == y

/-- One step of building the camper_groups dictionary of
parent_view_schedule: Python dict insertion order keeps the keys in order
of first occurrence, and each value is the set of group ids. -/
def addMembership (acc : List (Nat × List Nat)) (m : GroupMembership) : List (Nat × List Nat) :=
  match acc with
  | [] => [(m.camper_id, [m.group_id])]
  | (c, gs) :: rest =>
    if c == m.camper_id then
      (c, if gs.contains m.group_id then gs else gs ++ [m.group_id]) :: rest
    else
      (c, gs) :: addMembership rest m

/-- The camper_groups dictionary: camper id to the set of its group ids,
built from the membership rows in iteration order. -/
def camperGroupsOf (memberships : List GroupMembership) : List (Nat × List Nat) :=
  memberships.foldl addMembership []

/-- Emission step of parent_view_schedule for one event and one
camper_groups entry: when the camper belongs to the group of the event, looks
the camper and group rows up in the prefetched dictionaries (skipping the
record when either is missing) and builds the flattened item. -/
def scheduleRow (s : DB) (ev : GroupEvent) (entry : Nat × List Nat) :
    Option ParentScheduleItem :=
  if entry.2.contains ev.group_id then
    match s.campers.find? (fun c => c.id == entry.1),
          s.groups.find? (fun g => g.id == ev.group_id) with
    | some camper, some grp =>
      some ⟨entry.1, camper.first_name ++ (" ") ++ camper.last_name, grp.id, grp.name,
            ev.id, ev.title, ev.start_time, ev.end_time, ev.location⟩
    | _, _ => none
  else none

/-- Body of parent_view_schedule from the membership query on: shared by
the filtered and unfiltered paths, which differ only in the working camper
set. -/
def parentScheduleCore (camper_ids : List Nat) (camp_year : Option Int) (s : DB) :
    Res (List ParentScheduleItem) :=
  let memberships := s.group_memberships.filter (fun m => camper_ids.contains m.camper_id)
  if memberships.isEmpty then (Except.ok [], s)
  else
    let group_ids := (memberships.map (fun m => m.group_id)).eraseDups
    let events := sortByStart (s.group_events.filter (eventJoinOk s group_ids camp_year))
    let camper_groups := camperGroupsOf memberships
    (Except.ok (events.flatMap (fun ev => camper_groups.filterMap (scheduleRow s ev))), s)

/-- Handler of GET /api/parent/schedule (mainoriginal.py
parent_view_schedule): resolves the owned campers (empty set short-circuits
to an empty list), checks an optional camper filter against ownership
(HTTP 403 on violation), collects memberships and distinct group ids,
fetches the events of those groups ordered by ascending start time with an
optional camp-year filter, and fans each event out to every owned camper
whose group set contains the group of the event. Read-only. -/
def parent_view_schedule (camper_id : Option Nat) (camp_year : Option Int) (uid : Nat)
    (s : DB) : Res (List ParentScheduleItem) :=
  let camper_ids : List Nat :=
    (s.parent_campers.filter (fun pc => pc.parent_user_id == uid)).map (fun pc => pc.camper_id)
  if camper_ids.isEmpty then (Except.ok [], s)
  else
    match camper_id with
    | some cid =>
      if ¬ camper_ids.contains cid then (Except.error (Err.http 403), s)
      else parentScheduleCore [cid] camp_year s
    | none => parentScheduleCore camper_ids camp_year s

/-- Full request pipeline of GET /api/parent/schedule: the FastAPI
dependency chain runs require_auth, then require_role with role parent,
then the handler. -/
def parent_schedule_endpoint (s : DB) (credentials : Option String) (now : Int)
    (camper_id : Option Nat) (camp_year : Option Int) : Res (List ParentScheduleItem) :=
  let r := require_auth s credentials now
  match r.1 with
  | Except.error e => (Except.error e, r.2)
  | Except.ok u =>
    match require_role ("parent") u with
    | Except.error e => (Except.error e, r.2)
    | Except.ok u2 => parent_view_schedule camper_id camp_year u2.id r.2

/-! Helper lemmas. -/

/-- Any relation that holds between all pairs holds pairwise on any list. -/
theorem pairwise_of_forall_rel {α : Type} {R : α → α → Prop} (h : ∀ a b, R a b) :
    ∀ l : List α, List.Pairwise R l
  | [] => List.Pairwise.nil
  | a :: l => List.Pairwise.cons (fun b _ => h a b) (pairwise_of_forall_rel h l)

/-- Membership in an insertion step comes from the new event or the old list. -/
theorem mem_insertByStart {ev x : GroupEvent} :
    ∀ {l : List GroupEvent}, x ∈ insertByStart ev l → x = ev ∨ x ∈ l := by
  intro l
  induction l with
  | nil =>
    intro h
    simp only [insertByStart, List.mem_singleton] at h
    exact Or.inl h
  | cons e es ih =>
    intro h
    simp only [insertByStart] at h
    by_cases hle : ev.start_time ≤ e.start_time
    · rw [if_pos hle] at h
      rcases List.mem_cons.mp h with rfl | h
      · exact Or.inl rfl
      · exact Or.inr h
    · rw [if_neg hle] at h
      rcases List.mem_cons.mp h with rfl | h
      · exact Or.inr (List.mem_cons_self _ _)
      · rcases ih h with rfl | h2
        · exact Or.inl rfl
        · exact Or.inr (List.mem_cons_of_mem _ h2)

/-- Inserting preserves ascending ordering by start time. -/
theorem pairwise_insertByStart (ev : GroupEvent) :
    ∀ l : List GroupEvent,
      List.Pairwise (fun a b => a.start_time ≤ b.start_time) l →
      List.Pairwise (fun a b => a.start_time ≤ b.start_time) (insertByStart ev l) := by
  intro l
  induction l with
  | nil =>
    intro _
    simp [insertByStart]
  | cons e es ih =>
    intro h
    rcases List.pairwise_cons.mp h with ⟨he, hes⟩
    simp only [insertByStart]
    by_cases hle : ev.start_time ≤ e.start_time
    · rw [if_pos hle]
      refine List.pairwise_cons.mpr ⟨?_, h⟩
      intro x hx
      rcases List.mem_cons.mp hx with rfl | hx
      · exact hle
      · exact le_trans hle (he x hx)
    · rw [if_neg hle]
      refine List.pairwise_cons.mpr ⟨?_, ih hes⟩
      intro x hx
      rcases mem_insertByStart hx with rfl | hx
      · omega
      · exact he x hx

/-- The modelled ORDER BY produces an ascending list of events. -/
theorem pairwise_sortByStart :
    ∀ l : List GroupEvent,
      List.Pairwise (fun a b => a.start_time ≤ b.start_time) (sortByStart l)
  | [] => List.Pairwise.nil
  | e :: es => pairwise_insertByStart e (sortByStart es) (pairwise_sortByStart es)

/-- Every schedule record emitted for an event carries the start time of that event. -/
theorem scheduleRow_start_time {s : DB} {ev : GroupEvent} {entry : Nat × List Nat}
    {item : ParentScheduleItem} (h : scheduleRow s ev entry = some item) :
    item.start_time = ev.start_time := by
  unfold scheduleRow at h
  split at h
  · split at h
    · cases h
      rfl
    · cases h
  · cases h

/-- Fanning ascending events out over the camper_groups entries yields a
list of records ascending in start time. -/
theorem pairwise_schedule_flatMap (s : DB) (cgs : List (Nat × List Nat)) :
    ∀ events : List GroupEvent,
      List.Pairwise (fun a b => a.start_time ≤ b.start_time) events →
      List.Pairwise (fun a b => a.start_time ≤ b.start_time)
        (events.flatMap (fun ev => cgs.filterMap (scheduleRow s ev))) := by
  intro events
  induction events with
  | nil =>
    intro _
    simp
  | cons ev evs ih =>
    intro h
    rcases List.pairwise_cons.mp h with ⟨hev, hevs⟩
    rw [List.flatMap_cons, List.pairwise_append]
    refine ⟨?_, ih hevs, ?_⟩
    · rw [List.pairwise_filterMap]
      refine pairwise_of_forall_rel ?_ cgs
      intro a b x hx y hy
      rw [scheduleRow_start_time hx, scheduleRow_start_time hy]
    · intro a ha b hb
      rcases List.mem_filterMap.mp ha with ⟨x, _, hxa⟩
      rcases List.mem_flatMap.mp hb with ⟨ev2, hev2, hb2⟩
      rcases List.mem_filterMap.mp hb2 with ⟨y, _, hyb⟩
      rw [scheduleRow_start_time hxa, scheduleRow_start_time hyb]
      exact hev ev2 hev2

/-- Any ok result of the schedule core is ascending in event start time. -/
theorem parentScheduleCore_sorted (camper_ids : List Nat) (camp_year : Option Int) (s : DB)
    (items : List ParentScheduleItem) (s2 : DB)
    (h : parentScheduleCore camper_ids camp_year s = (Except.ok items, s2)) :
    List.Pairwise (fun a b => a.start_time ≤ b.start_time) items := by
  simp only [parentScheduleCore] at h
  split at h
  · injection h with h1 _
    injection h1 with h1
    subst h1
    exact List.Pairwise.nil
  · injection h with h1 _
    injection h1 with h1
    subst h1
    exact pairwise_schedule_flatMap s _ _ (pairwise_sortByStart _)

/-- Concrete scenario of the schedule-aggregation test in the spec: parent 1
owns campers 2 and 3; camper 2 is in group 5, camper 3 in groups 5 and 6;
group 5 has event 10 starting at 10, group 6 has event 11 starting at 14. -/
def dbC1 : DB :=
  { users := [⟨1, ("p@x"), ("P"), ("h"), ("parent"), true⟩],
    session_tokens := [],
    campers := [⟨2, ("Ann"), ("Ael"), none, none⟩, ⟨3, ("Bob"), ("Bel"), none, none⟩],
    parent_campers := [⟨20, 1, 2⟩, ⟨21, 1, 3⟩],
    camp_years := [⟨4, 2026, true⟩],
    enrollments := [],
    groups := [⟨5, 4, ("G1"), none⟩, ⟨6, 4, ("G2"), none⟩],
    group_memberships := [⟨7, 5, 2⟩, ⟨8, 5, 3⟩, ⟨9, 6, 3⟩],
    group_events := [⟨10, 5, ("E1"), none, none, 10, 11⟩, ⟨11, 6, ("E2"), none, none, 14, 15⟩],
    next_id := 30 }

/-- C1: for parent 1 owning campers 2 (in group 5) and 3 (in groups 5 and
6), with event 10 of group 5 starting before event 11 of group 6, the
unfiltered schedule returns exactly the three records (camper 2, group 5,
event 10), (camper 3, group 5, event 10), (camper 3, group 6, event 11) in
that order; and for every input, an ok result of the schedule handler is
ordered by ascending event start time. -/
theorem C1_schedule_aggregation :
    (parent_view_schedule none none 1 dbC1 =
      (Except.ok
        [⟨2, ("Ann Ael"), 5, ("G1"), 10, ("E1"), 10, 11, none⟩,
         ⟨3, ("Bob Bel"), 5, ("G1"), 10, ("E1"), 10, 11, none⟩,
         ⟨3, ("Bob Bel"), 6, ("G2"), 11, ("E2"), 14, 15, none⟩], dbC1)) ∧
    (∀ (camper_id : Option Nat) (camp_year : Option Int) (uid : Nat) (s : DB)
       (items : List ParentScheduleItem) (s2 : DB),
      parent_view_schedule camper_id camp_year uid s = (Except.ok items, s2) →
      List.Pairwise (fun a b => a.start_time ≤ b.start_time) items) := by
  constructor
  · rfl
  · intro camper_id camp_year uid s items s2 h
    simp only [parent_view_schedule] at h
    split at h
    · injection h with h1 _
      injection h1 with h1
      subst h1
      exact List.Pairwise.nil
    · split at h
      · split at h
        · injection h with h1 _
          injection h1
        · exact parentScheduleCore_sorted _ _ _ _ _ h
      · exact parentScheduleCore_sorted _ _ _ _ _ h

/-- Witness for C1: the list returned in the concrete scenario is indeed
ascending in start time, via the general part of the theorem. -/
theorem C1_schedule_aggregation_witness :
    List.Pairwise (fun a b => a.start_time ≤ b.start_time)
      [(⟨2, ("Ann Ael"), 5, ("G1"), 10, ("E1"), 10, 11, none⟩ : ParentScheduleItem),
       ⟨3, ("Bob Bel"), 5, ("G1"), 10, ("E1"), 10, 11, none⟩,
       ⟨3, ("Bob Bel"), 6, ("G2"), 11, ("E2"), 14, 15, none⟩] :=
  C1_schedule_aggregation.2 none none 1 dbC1 _ dbC1 C1_schedule_aggregation.1

/-- With pairwise-distinct token values (the uq_session_token constraint),
the row found by token value is the only row carrying that value. -/
theorem token_found_unique :
    ∀ (l : List SessionToken) (tv : String) (tok : SessionToken),
      l.Pairwise (fun a b => a.token ≠ b.token) →
      l.find? (fun t => t.token == tv) = some tok →
      ∀ x ∈ l, x.token = tv → x = tok := by
  intro l tv
  induction l with
  | nil =>
    intro tok _ hfind
    simp at hfind
  | cons t rest ih =>
    intro tok huniq hfind x hx hxtv
    rcases List.pairwise_cons.mp huniq with ⟨hhead, htail⟩
    by_cases ht : t.token = tv
    · have hpos : (fun t : SessionToken => t.token == tv) t = true := by simp [ht]
      have hstep : List.find? (fun t : SessionToken => t.token == tv) (t :: rest) = some t :=
        List.find?_cons_of_pos rest hpos
      rw [hstep] at hfind
      injection hfind with hfind
      subst hfind
      rcases List.mem_cons.mp hx with rfl | hx
      · rfl
      · exact absurd (ht.trans hxtv.symm) (hhead x hx)
    · have hneg : ¬ (fun t : SessionToken => t.token == tv) t = true := by simp [ht]
      have hstep : List.find? (fun t : SessionToken => t.token == tv) (t :: rest) =
          List.find? (fun t : SessionToken => t.token == tv) rest :=
        List.find?_cons_of_neg rest hneg
      rw [hstep] at hfind
      rcases List.mem_cons.mp hx with rfl | hx
      · exact absurd hxtv ht
      · exact ih tok htail hfind x hx hxtv

/-- After deleting the found row by primary key, no row with that token
value remains (token values being pairwise distinct). -/
theorem token_gone_after_delete (l : List SessionToken) (tv : String) (tok : SessionToken)
    (huniq : l.Pairwise (fun a b => a.token ≠ b.token))
    (hfind : l.find? (fun t => t.token == tv) = some tok) :
    (l.filter (fun t => t.id != tok.id)).find? (fun t => t.token == tv) = none := by
  rw [List.find?_eq_none]
  intro x hx hxtv
  rcases List.mem_filter.mp hx with ⟨hxl, hxid⟩
  have hx_eq : x = tok :=
    token_found_unique l tv tok huniq hfind x hxl (by simpa using hxtv)
  subst hx_eq
  simp at hxid

/-- C2: resolving a stored token whose expiry is in the past fails (and via
require_auth fails with HTTP 401), deletes the token row, and the same
token value is no longer resolvable afterward; resolving an absent token,
or a valid token whose owning account is inactive, also fails without
returning an account. -/
theorem C2_expired_token_resolution :
    ∀ (s : DB) (tv : String) (now : Int),
      (tv ≠ ("") → (get_user_by_token s tv now).1 = none →
        require_auth s (some tv) now =
          (Except.error (Err.http 401), (get_user_by_token s tv now).2)) ∧
      (∀ tok, s.session_tokens.Pairwise (fun a b => a.token ≠ b.token) →
        s.session_tokens.find? (fun t => t.token == tv) = some tok →
        tok.expires_at < now →
        (get_user_by_token s tv now).1 = none ∧
        get_user_by_token (get_user_by_token s tv now).2 tv now =
          (none, (get_user_by_token s tv now).2)) ∧
      (s.session_tokens.find? (fun t => t.token == tv) = none →
        get_user_by_token s tv now = (none, s)) ∧
      (∀ tok, s.session_tokens.find? (fun t => t.token == tv) = some tok →
        ¬ tok.expires_at < now →
        (∀ u ∈ s.users, u.id = tok.user_id → u.is_active = false) →
        get_user_by_token s tv now = (none, s)) := by
  intro s tv now
  refine ⟨?_, ?_, ?_, ?_⟩
  · intro htv hnone
    have hne : ¬ (tv == ("")) = true := by simp [htv]
    simp only [require_auth, if_neg hne]
    rw [hnone]
  · intro tok huniq hfind hexp
    have h2 : get_user_by_token s tv now =
        (none, { s with session_tokens := s.session_tokens.filter (fun t => t.id != tok.id) }) := by
      simp only [get_user_by_token, hfind, if_pos hexp]
    refine ⟨by rw [h2], ?_⟩
    rw [h2]
    simp only [get_user_by_token]
    rw [token_gone_after_delete _ _ _ huniq hfind]
  · intro hfind
    simp only [get_user_by_token, hfind]
  · intro tok hfind hexp hinactive
    simp only [get_user_by_token, hfind, if_neg hexp]
    have : s.users.find? (fun u => u.id == tok.user_id && u.is_active) = none := by
      rw [List.find?_eq_none]
      intro u hu
      by_cases hid : u.id = tok.user_id
      · simp [hid, hinactive u hu hid]
      · simp [hid]
    rw [this]

/-- Concrete state for the C2 witness: one stored token expiring at time 5,
owned by an active account. -/
def dbC2 : DB :=
  { users := [⟨1, ("p@x"), ("P"), ("h"), ("parent"), true⟩],
    session_tokens := [⟨9, ("tk"), 1, 5⟩],
    campers := [], parent_campers := [], camp_years := [], enrollments := [],
    groups := [], group_memberships := [], group_events := [], next_id := 10 }

/-- Witness for C2: at time 10 the token stored in dbC2 (expiry 5) fails to
resolve, and a second resolve on the resulting state also fails with the
token absent. -/
theorem C2_expired_token_resolution_witness :
    (get_user_by_token dbC2 ("tk") 10).1 = none ∧
    get_user_by_token (get_user_by_token dbC2 ("tk") 10).2 ("tk") 10 =
      (none, (get_user_by_token dbC2 ("tk") 10).2) :=
  (C2_expired_token_resolution dbC2 ("tk") 10).2.1 ⟨9, ("tk"), 1, 5⟩
    (by simp [dbC2]) (by rfl) (by decide)

/-- C3: role authorization succeeds returning the account exactly when the
role string of the account equals the required role; on mismatch it fails with
HTTP 403; in particular an authenticated admin account calling the
parent-only schedule endpoint fails with HTTP 403. -/
theorem C3_exact_role_match :
    (∀ (u : User) (role : String), require_role role u = Except.ok u ↔ u.role = role) ∧
    (∀ (u : User) (role : String), u.role ≠ role →
      require_role role u = Except.error (Err.http 403)) ∧
    (∀ (s : DB) (tv : String) (now : Int) (u : User) (s1 : DB)
       (camper_id : Option Nat) (camp_year : Option Int),
      require_auth s (some tv) now = (Except.ok u, s1) →
      u.role = ("admin") →
      parent_schedule_endpoint s (some tv) now camper_id camp_year =
        (Except.error (Err.http 403), s1)) := by
  refine ⟨?_, ?_, ?_⟩
  · intro u role
    constructor
    · intro h
      by_cases hr : u.role = role
      · exact hr
      · simp [require_role, hr] at h
    · intro h
      simp [require_role, h]
  · intro u role h
    simp [require_role, h]
  · intro s tv now u s1 camper_id camp_year hauth hrole
    simp only [parent_schedule_endpoint, hauth]
    simp [require_role, hrole]

/-- Concrete state for the C3 witness: an active admin account with a valid
token. -/
def dbC3 : DB :=
  { users := [⟨1, ("a@x"), ("A"), ("h"), ("admin"), true⟩],
    session_tokens := [⟨2, ("tk"), 1, 100⟩],
    campers := [], parent_campers := [], camp_years := [], enrollments := [],
    groups := [], group_memberships := [], group_events := [], next_id := 3 }

/-- Witness for C3: the admin of dbC3, authenticated with a valid token,
gets HTTP 403 from the parent schedule endpoint. -/
theorem C3_exact_role_match_witness :
    parent_schedule_endpoint dbC3 (some ("tk")) 0 none none =
      (Except.error (Err.http 403), dbC3) :=
  C3_exact_role_match.2.2 dbC3 ("tk") 0 ⟨1, ("a@x"), ("A"), ("h"), ("admin"), true⟩ dbC3
    none none (by rfl) (by rfl)

/-- Concrete state for the C4 counterexample: parent account 1 owns no
campers at all; camper 2 exists but is unlinked. -/
def dbC4 : DB :=
  { users := [⟨1, ("q@x"), ("Q"), ("h"), ("parent"), true⟩],
    session_tokens := [],
    campers := [⟨2, ("Ann"), ("Ael"), none, none⟩],
    parent_campers := [],
    camp_years := [], enrollments := [], groups := [],
    group_memberships := [], group_events := [], next_id := 3 }

/-- Counterexample to C4 as stated: parent 1 has no ownership link to
camper 2 (it owns nothing), yet the schedule request with camper filter 2
returns an empty ok list instead of failing with Forbidden. -/
theorem C4_counterexample :
    dbC4.parent_campers = [] ∧
    parent_view_schedule (some 2) none 1 dbC4 = (Except.ok [], dbC4) :=
  ⟨rfl, rfl⟩

/-- C4 (amended): for a parent with no ownership link to a camper, creating
an enrollment for that camper and updating an existing enrollment of that
camper fail with HTTP 403 and leave the state unchanged; the schedule
request with that camper as filter fails with HTTP 403 (state unchanged)
provided the parent owns at least one camper, while a parent owning no
campers receives an empty list instead. -/
theorem C4_ownership_enforcement :
    (∀ (payload : EnrollmentCreate) (uid : Nat) (s : DB),
      (∀ l ∈ s.parent_campers,
        ¬ (l.parent_user_id = uid ∧ l.camper_id = payload.camper_id)) →
      parent_enroll payload uid s = (Except.error (Err.http 403), s)) ∧
    (∀ (eid : Nat) (payload : EnrollmentUpdate) (uid : Nat) (s : DB) (enr : Enrollment),
      s.enrollments.find? (fun e => e.id == eid) = some enr →
      (∀ l ∈ s.parent_campers,
        ¬ (l.parent_user_id = uid ∧ l.camper_id = enr.camper_id)) →
      parent_update_enrollment eid payload uid s = (Except.error (Err.http 403), s)) ∧
    (∀ (cid : Nat) (camp_year : Option Int) (uid : Nat) (s : DB),
      (∃ l ∈ s.parent_campers, l.parent_user_id = uid) →
      (∀ l ∈ s.parent_campers, ¬ (l.parent_user_id = uid ∧ l.camper_id = cid)) →
      parent_view_schedule (some cid) camp_year uid s = (Except.error (Err.http 403), s)) ∧
    (∀ (cid : Nat) (camp_year : Option Int) (uid : Nat) (s : DB),
      (∀ l ∈ s.parent_campers, l.parent_user_id ≠ uid) →
      parent_view_schedule (some cid) camp_year uid s = (Except.ok [], s)) := by
  refine ⟨?_, ?_, ?_, ?_⟩
  · intro payload uid s hno
    have hfind : s.parent_campers.find?
        (fun l => l.parent_user_id == uid && l.camper_id == payload.camper_id) = none := by
      rw [List.find?_eq_none]
      intro l hl
      have h := hno l hl
      simp only [Bool.and_eq_true, beq_iff_eq]
      tauto
    simp [parent_enroll, ensure_parent_owns_camper, hfind]
  · intro eid payload uid s enr hfe hno
    have hfind : s.parent_campers.find?
        (fun l => l.parent_user_id == uid && l.camper_id == enr.camper_id) = none := by
      rw [List.find?_eq_none]
      intro l hl
      have h := hno l hl
      simp only [Bool.and_eq_true, beq_iff_eq]
      tauto
    simp [parent_update_enrollment, hfe, ensure_parent_owns_camper, hfind]
  · intro cid camp_year uid s hsome hno
    obtain ⟨l0, hl0, hl0uid⟩ := hsome
    have hmem : l0.camper_id ∈
        (s.parent_campers.filter (fun pc => pc.parent_user_id == uid)).map
          (fun pc => pc.camper_id) :=
      List.mem_map.mpr ⟨l0, List.mem_filter.mpr ⟨hl0, by simp [hl0uid]⟩, rfl⟩
    have hne : ((s.parent_campers.filter (fun pc => pc.parent_user_id == uid)).map
        (fun pc => pc.camper_id)).isEmpty = false := by
      rcases hmk : (s.parent_campers.filter (fun pc => pc.parent_user_id == uid)).map
          (fun pc => pc.camper_id) with _ | ⟨a, as⟩
      · rw [hmk] at hmem
        exact absurd hmem (List.not_mem_nil _)
      · rw [hmk]
        rfl
    have hnc : ¬ cid ∈
        (s.parent_campers.filter (fun pc => pc.parent_user_id == uid)).map
          (fun pc => pc.camper_id) := by
      intro hc
      rcases List.mem_map.mp hc with ⟨pc, hpc, hpcid⟩
      rcases List.mem_filter.mp hpc with ⟨hpcl, hpcuid⟩
      exact hno pc hpcl ⟨by simpa using hpcuid, hpcid⟩
    simp [parent_view_schedule, hne, hnc]
  · intro cid camp_year uid s hno
    have hfilter : s.parent_campers.filter (fun pc => pc.parent_user_id == uid) = [] := by
      rw [List.filter_eq_nil_iff]
      intro pc hpc
      simp [hno pc hpc]
    simp [parent_view_schedule, hfilter]

/-- Concrete state for the C4 witness: parent 1 owns no campers but
enrollment 6 of camper 2 exists. -/
def dbC4w : DB :=
  { users := [⟨1, ("q@x"), ("Q"), ("h"), ("parent"), true⟩],
    session_tokens := [],
    campers := [⟨2, ("Ann"), ("Ael"), none, none⟩],
    parent_campers := [],
    camp_years := [⟨4, 2026, true⟩],
    enrollments := [⟨6, 4, 2, ("pending"), none⟩],
    groups := [], group_memberships := [], group_events := [], next_id := 7 }

/-- Witness for C4 (amended): parent 1 of dbC4w owns nothing, so enrolling
camper 2 and updating enrollment 6 both fail HTTP 403 unchanged; in dbC1,
parent 1 owns campers but not camper 99, so the filtered schedule fails
HTTP 403; a parent id 7 owning nothing gets an empty list. -/
theorem C4_ownership_enforcement_witness :
    parent_enroll ⟨2, 2026⟩ 1 dbC4w = (Except.error (Err.http 403), dbC4w) ∧
    parent_update_enrollment 6 ⟨("withdrawn"), none⟩ 1 dbC4w =
      (Except.error (Err.http 403), dbC4w) ∧
    parent_view_schedule (some 99) none 1 dbC1 = (Except.error (Err.http 403), dbC1) ∧
    parent_view_schedule (some 2) none 7 dbC4w = (Except.ok [], dbC4w) :=
  ⟨C4_ownership_enforcement.1 ⟨2, 2026⟩ 1 dbC4w (by decide),
   C4_ownership_enforcement.2.1 6 ⟨("withdrawn"), none⟩ 1 dbC4w ⟨6, 4, 2, ("pending"), none⟩
     (by rfl) (by decide),
   C4_ownership_enforcement.2.2.1 99 none 1 dbC1
     ⟨⟨20, 1, 2⟩, by simp [dbC1], rfl⟩ (by decide),
   C4_ownership_enforcement.2.2.2 2 none 7 dbC4w (by decide)⟩

/-- Counterexample to C5 as stated: starting from the empty database, if
the first commit (camper row) succeeds and the second commit (ownership
link) fails, the call fails but the camper row is already committed, so the
state after the failed call differs from the state before it. -/
theorem C5_counterexample :
    (parent_add_child ⟨("Kid"), ("Doe"), none, none⟩ 1 (fun n => n == 0) DB.empty).1 =
      Except.error Err.dbError ∧
    (parent_add_child ⟨("Kid"), ("Doe"), none, none⟩ 1 (fun n => n == 0) DB.empty).2 ≠
      DB.empty ∧
    (parent_add_child ⟨("Kid"), ("Doe"), none, none⟩ 1 (fun n => n == 0) DB.empty).2.campers =
      [⟨0, ("Kid"), ("Doe"), none, none⟩] :=
  ⟨rfl, by decide, rfl⟩

/-- C5 (amended): creating a camper under a parent issues two separate
commits, not one transaction. If the first commit fails nothing is
persisted; if the camper commit succeeds and the link commit fails, the
call fails but the camper row remains committed while no link is added;
if both succeed, the camper row and the ownership link are both persisted. -/
theorem C5_child_creation_two_commits :
    ∀ (payload : CamperCreate) (uid : Nat) (commit_ok : Nat → Bool) (s : DB),
      (commit_ok 0 = false →
        parent_add_child payload uid commit_ok s = (Except.error Err.dbError, s)) ∧
      (commit_ok 0 = true → commit_ok 1 = false →
        parent_add_child payload uid commit_ok s =
          (Except.error Err.dbError,
           { s with
               campers := s.campers ++
                 [⟨s.next_id, payload.first_name, payload.last_name, payload.date_of_birth,
                   payload.emergency_info⟩],
               next_id := s.next_id + 1 })) ∧
      (commit_ok 0 = true → commit_ok 1 = true →
        parent_add_child payload uid commit_ok s =
          (Except.ok ⟨s.next_id + 1, uid, s.next_id⟩,
           { s with
               campers := s.campers ++
                 [⟨s.next_id, payload.first_name, payload.last_name, payload.date_of_birth,
                   payload.emergency_info⟩],
               parent_campers := s.parent_campers ++ [⟨s.next_id + 1, uid, s.next_id⟩],
               next_id := s.next_id + 1 + 1 })) := by
  intro payload uid commit_ok s
  refine ⟨?_, ?_, ?_⟩
  · intro h0
    simp [parent_add_child, h0]
  · intro h0 h1
    simp [parent_add_child, h0, h1]
  · intro h0 h1
    simp [parent_add_child, h0, h1]

/-- Witness for C5 (amended): the failing-second-commit case on the empty
database leaves exactly the camper row committed. -/
theorem C5_child_creation_two_commits_witness :
    parent_add_child ⟨("Kid"), ("Doe"), none, none⟩ 1 (fun n => n == 0) DB.empty =
      (Except.error Err.dbError,
       { DB.empty with campers := [⟨0, ("Kid"), ("Doe"), none, none⟩], next_id := 1 }) := by
  have h := (C5_child_creation_two_commits ⟨("Kid"), ("Doe"), none, none⟩ 1
    (fun n => n == 0) DB.empty).2.1 (by rfl) (by rfl)
  simpa [DB.empty] using h

/-- With pairwise-distinct year numbers (the uq_camp_year constraint of
models.py), the find by year number returns exactly the stored year row
carrying that number. -/
theorem year_found_unique :
    ∀ (l : List CampYear) (y : Int) (cy : CampYear),
      l.Pairwise (fun a b => a.year ≠ b.year) →
      cy ∈ l → cy.year = y →
      l.find? (fun c => c.year == y) = some cy := by
  intro l y
  induction l with
  | nil =>
    intro cy _ hmem
    exact absurd hmem (List.not_mem_nil cy)
  | cons t rest ih =>
    intro cy huniq hmem hy
    rcases List.pairwise_cons.mp huniq with ⟨hhead, htail⟩
    rcases List.mem_cons.mp hmem with rfl | hmem
    · have hpos : (fun c : CampYear => c.year == y) cy = true := by simp [hy]
      exact List.find?_cons_of_pos rest hpos
    · have ht : ¬ t.year = y := fun h => hhead cy hmem (h.trans hy.symm)
      have hneg : ¬ (fun c : CampYear => c.year == y) t = true := by simp [ht]
      have hstep : List.find? (fun c : CampYear => c.year == y) (t :: rest) =
          List.find? (fun c : CampYear => c.year == y) rest :=
        List.find?_cons_of_neg rest hneg
      rw [hstep]
      exact ih cy htail hmem hy

/-- C6: when a group with the requested name already exists in the resolved
camp year, creating another group with that name in that year fails with
the uq_group_year_name uniqueness violation and the state is unchanged (no
second group row). -/
theorem C6_group_name_uniqueness :
    ∀ (payload : GroupCreate) (s : DB) (cy : CampYear) (g : Group),
      s.camp_years.Pairwise (fun a b => a.year ≠ b.year) →
      cy ∈ s.camp_years → cy.year = payload.camp_year →
      g ∈ s.groups → g.camp_year_id = cy.id → g.name = payload.name →
      admin_create_group payload s =
        (Except.error (Err.conflictUnique ("uq_group_year_name")), s) := by
  intro payload s cy g huniq hcy hy hg hgid hgname
  have hfind : s.camp_years.find? (fun c => c.year == payload.camp_year) = some cy :=
    year_found_unique s.camp_years payload.camp_year cy huniq hcy hy
  have hany : s.groups.any
      (fun g0 => g0.camp_year_id == cy.id && g0.name == payload.name) = true :=
    List.any_eq_true.mpr ⟨g, hg, by simp [hgid, hgname]⟩
  simp [admin_create_group, get_or_create_camp_year, hfind, hany]

/-- Concrete state for the C6 witness: camp year 2026 already holds a group
named G1. -/
def dbC6 : DB :=
  { users := [], session_tokens := [], campers := [], parent_campers := [],
    camp_years := [⟨4, 2026, true⟩],
    enrollments := [],
    groups := [⟨5, 4, ("G1"), none⟩],
    group_memberships := [], group_events := [], next_id := 6 }

/-- Witness for C6: recreating group G1 in year 2026 fails with the
uniqueness violation and leaves dbC6 unchanged. -/
theorem C6_group_name_uniqueness_witness :
    admin_create_group ⟨2026, ("G1"), none⟩ dbC6 =
      (Except.error (Err.conflictUnique ("uq_group_year_name")), dbC6) :=
  C6_group_name_uniqueness ⟨2026, ("G1"), none⟩ dbC6 ⟨4, 2026, true⟩ ⟨5, 4, ("G1"), none⟩
    (by simp [dbC6]) (by simp [dbC6]) (by rfl) (by simp [dbC6]) (by rfl) (by rfl)

/-- C7: creating an event fails with HTTP 404 when the target group does
not exist and with HTTP 400 when end_time is not after start_time, in both
cases leaving the state unchanged; when the group exists and the times are
valid, an event row with exactly the given fields is appended. -/
theorem C7_event_creation :
    ∀ (payload : GroupEventCreate) (s : DB),
      ((∀ g ∈ s.groups, g.id ≠ payload.group_id) →
        admin_create_event payload s = (Except.error (Err.http 404), s)) ∧
      ((∃ g ∈ s.groups, g.id = payload.group_id) →
        payload.end_time ≤ payload.start_time →
        admin_create_event payload s = (Except.error (Err.http 400), s)) ∧
      ((∃ g ∈ s.groups, g.id = payload.group_id) →
        payload.start_time < payload.end_time →
        admin_create_event payload s =
          (Except.ok ⟨s.next_id, payload.group_id, payload.title, payload.description,
                      payload.location, payload.start_time, payload.end_time⟩,
           { s with
               group_events := s.group_events ++
                 [⟨s.next_id, payload.group_id, payload.title, payload.description,
                   payload.location, payload.start_time, payload.end_time⟩],
               next_id := s.next_id + 1 })) := by
  intro payload s
  have hfound : (∃ g ∈ s.groups, g.id = payload.group_id) →
      ∃ g2, s.groups.find? (fun g => g.id == payload.group_id) = some g2 := by
    rintro ⟨g, hg, hgid⟩
    rcases hcase : s.groups.find? (fun g => g.id == payload.group_id) with _ | g2
    · rw [List.find?_eq_none] at hcase
      exact absurd (by simp [hgid]) (hcase g hg)
    · exact ⟨g2, hcase⟩
  refine ⟨?_, ?_, ?_⟩
  · intro hno
    have hfind : s.groups.find? (fun g => g.id == payload.group_id) = none := by
      rw [List.find?_eq_none]
      intro g hg
      simp [hno g hg]
    simp [admin_create_event, hfind]
  · intro hex hle
    obtain ⟨g2, hfind⟩ := hfound hex
    simp [admin_create_event, hfind, hle]
  · intro hex hlt
    obtain ⟨g2, hfind⟩ := hfound hex
    have hle : ¬ payload.end_time ≤ payload.start_time := by omega
    simp [admin_create_event, hfind, hle]

/-- Concrete state for the C7 witness: one group with id 5. -/
def dbC7 : DB :=
  { users := [], session_tokens := [], campers := [], parent_campers := [],
    camp_years := [⟨4, 2026, true⟩],
    enrollments := [],
    groups := [⟨5, 4, ("G1"), none⟩],
    group_memberships := [], group_events := [], next_id := 6 }

/-- Witness for C7: a missing group yields HTTP 404 unchanged, equal start
and end times yield HTTP 400 unchanged, and a valid request appends exactly
the requested event row. -/
theorem C7_event_creation_witness :
    admin_create_event ⟨9, ("E"), none, none, 10, 11⟩ dbC7 =
      (Except.error (Err.http 404), dbC7) ∧
    admin_create_event ⟨5, ("E"), none, none, 10, 10⟩ dbC7 =
      (Except.error (Err.http 400), dbC7) ∧
    admin_create_event ⟨5, ("E"), none, none, 10, 11⟩ dbC7 =
      (Except.ok ⟨6, 5, ("E"), none, none, 10, 11⟩,
       { dbC7 with group_events := [⟨6, 5, ("E"), none, none, 10, 11⟩], next_id := 7 }) := by
  refine ⟨(C7_event_creation ⟨9, ("E"), none, none, 10, 11⟩ dbC7).1 (by decide), ?_, ?_⟩
  · exact (C7_event_creation ⟨5, ("E"), none, none, 10, 10⟩ dbC7).2.1
      ⟨⟨5, 4, ("G1"), none⟩, by simp [dbC7], rfl⟩ (by decide)
  · have h := (C7_event_creation ⟨5, ("E"), none, none, 10, 11⟩ dbC7).2.2
      ⟨⟨5, 4, ("G1"), none⟩, by simp [dbC7], rfl⟩ (by decide)
    simpa [dbC7] using h

/-- C8: token expiry is strict. A token found for the presented value whose
expiry equals the current instant is not deleted and resolves through the
active-account lookup (to its account when that lookup succeeds); only a
token with expiry strictly earlier than now is rejected, with exactly its
row deleted. -/
theorem C8_expiry_boundary :
    ∀ (s : DB) (tv : String) (now : Int) (tok : SessionToken),
      s.session_tokens.find? (fun t => t.token == tv) = some tok →
      (tok.expires_at = now →
        ∀ u, s.users.find? (fun x => x.id == tok.user_id && x.is_active) = some u →
          get_user_by_token s tv now = (some u, s)) ∧
      (now ≤ tok.expires_at →
        get_user_by_token s tv now =
          (s.users.find? (fun x => x.id == tok.user_id && x.is_active), s)) ∧
      (tok.expires_at < now →
        (get_user_by_token s tv now).1 = none ∧
        (get_user_by_token s tv now).2.session_tokens =
          s.session_tokens.filter (fun t => t.id != tok.id)) := by
  intro s tv now tok hfind
  refine ⟨?_, ?_, ?_⟩
  · intro heq u hu
    have hnl : ¬ tok.expires_at < now := by omega
    simp [get_user_by_token, hfind, hnl, hu]
  · intro hle
    have hnl : ¬ tok.expires_at < now := by omega
    simp [get_user_by_token, hfind, hnl]
  · intro hlt
    constructor <;> simp [get_user_by_token, hfind, hlt]

/-- Concrete state for the C8 witness: an active account with a token whose
expiry timestamp is 5. -/
def dbC8 : DB :=
  { users := [⟨1, ("p@x"), ("P"), ("h"), ("parent"), true⟩],
    session_tokens := [⟨9, ("tk"), 1, 5⟩],
    campers := [], parent_campers := [], camp_years := [], enrollments := [],
    groups := [], group_memberships := [], group_events := [], next_id := 10 }

/-- Witness for C8: presented exactly at its expiry instant (time 5), the
token of dbC8 still resolves to its account and nothing is deleted. -/
theorem C8_expiry_boundary_witness :
    get_user_by_token dbC8 ("tk") 5 =
      (some ⟨1, ("p@x"), ("P"), ("h"), ("parent"), true⟩, dbC8) :=
  ((C8_expiry_boundary dbC8 ("tk") 5 ⟨9, ("tk"), 1, 5⟩ (by rfl)).1 (by rfl)
    ⟨1, ("p@x"), ("P"), ("h"), ("parent"), true⟩ (by rfl))

/-- The camp-year lookup-or-create step never touches the enrollments
table. -/
theorem get_or_create_camp_year_enrollments (s : DB) (y : Int) :
    (get_or_create_camp_year s y).2.enrollments = s.enrollments := by
  unfold get_or_create_camp_year
  split <;> rfl

/-- C9: every enrollment created through the parent enrollment-creation
operation starts with status pending and empty notes, whatever the request
content, and the only row the call adds to the enrollments table is that
enrollment. -/
theorem C9_enrollment_defaults :
    ∀ (payload : EnrollmentCreate) (uid : Nat) (s : DB) (enr : Enrollment) (s2 : DB),
      parent_enroll payload uid s = (Except.ok enr, s2) →
      enr.status = ("pending") ∧ enr.notes = none ∧
      ∀ e ∈ s2.enrollments, e ∈ s.enrollments ∨ e = enr := by
  intro payload uid s enr s2 h
  simp only [parent_enroll] at h
  split at h
  · exact absurd h (by simp)
  · split at h
    · exact absurd h (by simp)
    · injection h with h1 h2
      injection h1 with h1
      subst h1
      subst h2
      refine ⟨rfl, rfl, ?_⟩
      intro e he
      simp only [] at he
      rw [List.mem_append] at he
      rcases he with he | he
      · rw [get_or_create_camp_year_enrollments] at he
        exact Or.inl he
      · rw [List.mem_singleton] at he
        exact Or.inr he

/-- Concrete state for the C9 witness: parent 1 owns camper 2 and no
enrollment exists yet. -/
def dbC9 : DB :=
  { users := [⟨1, ("p@x"), ("P"), ("h"), ("parent"), true⟩],
    session_tokens := [],
    campers := [⟨2, ("Ann"), ("Ael"), none, none⟩],
    parent_campers := [⟨3, 1, 2⟩],
    camp_years := [⟨4, 2026, true⟩],
    enrollments := [],
    groups := [], group_memberships := [], group_events := [], next_id := 5 }

/-- Witness for C9: enrolling camper 2 for year 2026 in dbC9 succeeds and
the created enrollment has status pending and empty notes. -/
theorem C9_enrollment_defaults_witness :
    parent_enroll ⟨2, 2026⟩ 1 dbC9 =
      (Except.ok ⟨5, 4, 2, ("pending"), none⟩,
       { dbC9 with enrollments := [⟨5, 4, 2, ("pending"), none⟩], next_id := 6 }) ∧
    (⟨5, 4, 2, ("pending"), none⟩ : Enrollment).status = ("pending") ∧
    (⟨5, 4, 2, ("pending"), none⟩ : Enrollment).notes = none :=
  ⟨by rfl,
   (C9_enrollment_defaults ⟨2, 2026⟩ 1 dbC9 ⟨5, 4, 2, ("pending"), none⟩
     (parent_enroll ⟨2, 2026⟩ 1 dbC9).2 (by rfl)).1,
   (C9_enrollment_defaults ⟨2, 2026⟩ 1 dbC9 ⟨5, 4, 2, ("pending"), none⟩
     (parent_enroll ⟨2, 2026⟩ 1 dbC9).2 (by rfl)).2.1⟩

/-- Invariant of C10: every stored account other than the seeded admin
(identified by the configured seed email) has role parent. -/
def onlyParentsBesidesSeed (seed_email : String) (s : DB) : Prop :=
  ∀ u ∈ s.users, u.email ≠ seed_email → u.role = ("parent")

/-- The invariant transfers along equality of the users table. -/
theorem onlyParentsBesidesSeed_of_users_eq {e : String} {s s2 : DB}
    (husers : s2.users = s.users) (h : onlyParentsBesidesSeed e s) :
    onlyParentsBesidesSeed e s2 := by
  intro u hu hne
  rw [husers] at hu
  exact h u hu hne

/-- Appending a parent-role account preserves the invariant. -/
theorem onlyParents_append_parent {e : String} {l : List User} {p : User}
    (hl : ∀ u ∈ l, u.email ≠ e → u.role = ("parent")) (hp : p.role = ("parent")) :
    ∀ u ∈ l ++ [p], u.email ≠ e → u.role = ("parent") := by
  intro u hu hne
  rcases List.mem_append.mp hu with hu | hu
  · exact hl u hu hne
  · rw [List.mem_singleton] at hu
    subst hu
    exact hp

/-- Appending the seeded admin itself preserves the invariant. -/
theorem onlyParents_append_seed {e : String} {l : List User} {adm : User}
    (hl : ∀ u ∈ l, u.email ≠ e → u.role = ("parent")) (hadm : adm.email = e) :
    ∀ u ∈ l ++ [adm], u.email ≠ e → u.role = ("parent") := by
  intro u hu hne
  rcases List.mem_append.mp hu with hu | hu
  · exact hl u hu hne
  · rw [List.mem_singleton] at hu
    subst hu
    exact absurd hadm hne

/-- Token resolution never modifies the users table. -/
theorem users_get_user_by_token (s : DB) (tv : String) (now : Int) :
    (get_user_by_token s tv now).2.users = s.users := by
  unfold get_user_by_token
  split
  · rfl
  · split <;> rfl

/-- Authentication never modifies the users table. -/
theorem users_require_auth (s : DB) (cred : Option String) (now : Int) :
    (require_auth s cred now).2.users = s.users := by
  unfold require_auth
  cases cred with
  | none => rfl
  | some tv =>
    simp only
    split
    · rfl
    · split
      · exact users_get_user_by_token s tv now
      · exact users_get_user_by_token s tv now

/-- Camp-year lookup or creation never modifies the users table. -/
theorem users_get_or_create_camp_year (s : DB) (y : Int) :
    (get_or_create_camp_year s y).2.users = s.users := by
  unfold get_or_create_camp_year
  split <;> rfl

/-- Login never modifies the users table. -/
theorem users_login (payload : LoginRequest) (tv : String) (now ttl : Int) (s : DB) :
    (login payload tv now ttl s).2.users = s.users := by
  unfold login
  split
  · rfl
  · split <;> rfl

/-- Child creation never modifies the users table. -/
theorem users_parent_add_child (payload : CamperCreate) (uid : Nat) (ok : Nat → Bool) (s : DB) :
    (parent_add_child payload uid ok s).2.users = s.users := by
  unfold parent_add_child
  split
  · rfl
  · split <;> rfl

/-- Enrollment creation never modifies the users table. -/
theorem users_parent_enroll (payload : EnrollmentCreate) (uid : Nat) (s : DB) :
    (parent_enroll payload uid s).2.users = s.users := by
  unfold parent_enroll
  split
  · rfl
  · dsimp only
    split
    · exact users_get_or_create_camp_year s payload.camp_year
    · exact users_get_or_create_camp_year s payload.camp_year

/-- Enrollment update never modifies the users table. -/
theorem users_parent_update_enrollment (eid : Nat) (payload : EnrollmentUpdate) (uid : Nat)
    (s : DB) : (parent_update_enrollment eid payload uid s).2.users = s.users := by
  unfold parent_update_enrollment
  split
  · rfl
  · split <;> rfl

/-- Group creation never modifies the users table. -/
theorem users_admin_create_group (payload : GroupCreate) (s : DB) :
    (admin_create_group payload s).2.users = s.users := by
  unfold admin_create_group
  dsimp only
  split
  · exact users_get_or_create_camp_year s payload.camp_year
  · exact users_get_or_create_camp_year s payload.camp_year

/-- Membership creation never modifies the users table. -/
theorem users_admin_add_group_member (gid : Nat) (payload : GroupMembershipCreate) (s : DB) :
    (admin_add_group_member gid payload s).2.users = s.users := by
  unfold admin_add_group_member
  split
  · rfl
  · split
    · rfl
    · split <;> rfl

/-- Event creation never modifies the users table. -/
theorem users_admin_create_event (payload : GroupEventCreate) (s : DB) :
    (admin_create_event payload s).2.users = s.users := by
  unfold admin_create_event
  split
  · rfl
  · split <;> rfl

/-- The schedule core is read-only: it returns the state it was given. -/
theorem state_parentScheduleCore (cids : List Nat) (cy : Option Int) (s : DB) :
    (parentScheduleCore cids cy s).2 = s := by
  unfold parentScheduleCore
  dsimp only
  split <;> rfl

/-- The schedule view is read-only: it returns the state it was given. -/
theorem state_parent_view_schedule (cid : Option Nat) (cy : Option Int) (uid : Nat) (s : DB) :
    (parent_view_schedule cid cy uid s).2 = s := by
  unfold parent_view_schedule
  dsimp only
  split
  · rfl
  · split
    · split
      · rfl
      · exact state_parentScheduleCore _ _ _
    · exact state_parentScheduleCore _ _ _

/-- Seeding preserves the invariant: the only account it may add is the
seeded admin itself. -/
theorem seed_preserves_onlyParents (e pw : String) (yr : Int) (s : DB)
    (h : onlyParentsBesidesSeed e s) :
    onlyParentsBesidesSeed e (seed_admin_and_year e pw yr s) := by
  unfold seed_admin_and_year
  split
  · dsimp only
    split
    · exact h
    · exact onlyParents_append_seed h rfl
  · dsimp only
    split
    · intro u hu hne
      exact h u hu hne
    · exact onlyParents_append_seed (fun u hu hne => h u hu hne) rfl

/-- C10: both account-creation operations produce an account with role
parent and the active flag set; and the invariant that every account other
than the seeded admin has role parent is preserved by every state-changing
operation of the system. -/
theorem C10_accounts_parent_role :
    (∀ (payload : RegisterParentRequest) (s : DB) (u : User) (s2 : DB),
      register_parent payload s = (Except.ok u, s2) →
      u.role = ("parent") ∧ u.is_active = true) ∧
    (∀ (payload : ParentCreate) (s : DB) (u : User) (s2 : DB),
      admin_create_parent payload s = (Except.ok u, s2) →
      u.role = ("parent") ∧ u.is_active = true) ∧
    (∀ (e : String) (s : DB), onlyParentsBesidesSeed e s →
      (∀ payload : RegisterParentRequest,
        onlyParentsBesidesSeed e (register_parent payload s).2) ∧
      (∀ payload : ParentCreate,
        onlyParentsBesidesSeed e (admin_create_parent payload s).2) ∧
      (∀ (pw : String) (yr : Int),
        onlyParentsBesidesSeed e (seed_admin_and_year e pw yr s)) ∧
      (∀ (payload : LoginRequest) (tv : String) (now ttl : Int),
        onlyParentsBesidesSeed e (login payload tv now ttl s).2) ∧
      (∀ (tv : String) (now : Int),
        onlyParentsBesidesSeed e (get_user_by_token s tv now).2) ∧
      (∀ (cred : Option String) (now : Int),
        onlyParentsBesidesSeed e (require_auth s cred now).2) ∧
      (∀ payload : CamperCreate,
        onlyParentsBesidesSeed e (admin_create_camper payload s).2) ∧
      (∀ (payload : CamperCreate) (uid : Nat) (ok : Nat → Bool),
        onlyParentsBesidesSeed e (parent_add_child payload uid ok s).2) ∧
      (∀ (payload : EnrollmentCreate) (uid : Nat),
        onlyParentsBesidesSeed e (parent_enroll payload uid s).2) ∧
      (∀ (eid : Nat) (payload : EnrollmentUpdate) (uid : Nat),
        onlyParentsBesidesSeed e (parent_update_enrollment eid payload uid s).2) ∧
      (∀ payload : GroupCreate,
        onlyParentsBesidesSeed e (admin_create_group payload s).2) ∧
      (∀ (gid : Nat) (payload : GroupMembershipCreate),
        onlyParentsBesidesSeed e (admin_add_group_member gid payload s).2) ∧
      (∀ payload : GroupEventCreate,
        onlyParentsBesidesSeed e (admin_create_event payload s).2) ∧
      (∀ (cid : Option Nat) (cy : Option Int) (uid : Nat),
        onlyParentsBesidesSeed e (parent_view_schedule cid cy uid s).2) ∧
      (∀ y : Int, onlyParentsBesidesSeed e (get_or_create_camp_year s y).2)) := by
  refine ⟨?_, ?_, ?_⟩
  · intro payload s u s2 h
    simp only [register_parent] at h
    split at h
    · exact absurd h (by simp)
    · injection h with h1 _
      injection h1 with h1
      subst h1
      exact ⟨rfl, rfl⟩
  · intro payload s u s2 h
    simp only [admin_create_parent] at h
    split at h
    · exact absurd h (by simp)
    · injection h with h1 _
      injection h1 with h1
      subst h1
      exact ⟨rfl, rfl⟩
  · intro e s h
    refine ⟨?_, ?_, ?_, ?_, ?_, ?_, ?_, ?_, ?_, ?_, ?_, ?_, ?_, ?_, ?_⟩
    · intro payload
      unfold register_parent
      split
      · exact h
      · exact onlyParents_append_parent h rfl
    · intro payload
      unfold admin_create_parent
      split
      · exact h
      · exact onlyParents_append_parent h rfl
    · intro pw yr
      exact seed_preserves_onlyParents e pw yr s h
    · intro payload tv now ttl
      exact onlyParentsBesidesSeed_of_users_eq (users_login payload tv now ttl s) h
    · intro tv now
      exact onlyParentsBesidesSeed_of_users_eq (users_get_user_by_token s tv now) h
    · intro cred now
      exact onlyParentsBesidesSeed_of_users_eq (users_require_auth s cred now) h
    · intro payload
      exact h
    · intro payload uid ok
      exact onlyParentsBesidesSeed_of_users_eq (users_parent_add_child payload uid ok s) h
    · intro payload uid
      exact onlyParentsBesidesSeed_of_users_eq (users_parent_enroll payload uid s) h
    · intro eid payload uid
      exact onlyParentsBesidesSeed_of_users_eq
        (users_parent_update_enrollment eid payload uid s) h
    · intro payload
      exact onlyParentsBesidesSeed_of_users_eq (users_admin_create_group payload s) h
    · intro gid payload
      exact onlyParentsBesidesSeed_of_users_eq (users_admin_add_group_member gid payload s) h
    · intro payload
      exact onlyParentsBesidesSeed_of_users_eq (users_admin_create_event payload s) h
    · intro cid cy uid
      exact onlyParentsBesidesSeed_of_users_eq
        (congrArg DB.users (state_parent_view_schedule cid cy uid s)) h
    · intro y
      exact onlyParentsBesidesSeed_of_users_eq (users_get_or_create_camp_year s y) h

/-- Witness for C10: registering a parent on the empty database yields an
account with role parent and the active flag set. -/
theorem C10_accounts_parent_role_witness :
    register_parent ⟨("p@x"), ("secret1"), ("P")⟩ DB.empty =
      (Except.ok ⟨0, ("p@x"), ("P"), hash_password ("secret1"), ("parent"), true⟩,
       { DB.empty with
           users := [⟨0, ("p@x"), ("P"), hash_password ("secret1"), ("parent"), true⟩],
           next_id := 1 }) ∧
    (⟨0, ("p@x"), ("P"), hash_password ("secret1"), ("parent"), true⟩ : User).role =
      ("parent") ∧
    (⟨0, ("p@x"), ("P"), hash_password ("secret1"), ("parent"), true⟩ : User).is_active =
      true :=
  ⟨by rfl,
   C10_accounts_parent_role.1 ⟨("p@x"), ("secret1"), ("P")⟩ DB.empty
     ⟨0, ("p@x"), ("P"), hash_password ("secret1"), ("parent"), true⟩
     (register_parent ⟨("p@x"), ("secret1"), ("P")⟩ DB.empty).2 (by rfl)⟩

end Camp
